import Mathlib

/-!
Verification of the `TFDataSet` abstract base class (`tf_dataset.py`).

The class wraps a TensorFlow 1.x input pipeline: it resolves a file
pattern, repeats it for a number of epochs, reads the files (interleaved
when shuffling, sequentially otherwise), optionally shards the record
stream across distributed workers, optionally shuffles, maps a
subclass-supplied parser over each record, batches, and returns a
one-shot-iterator handle.  A lazy record counter drains the raw pipeline
once and caches the count.

Shallow embedding used here:
* Pipeline construction is modelled structurally: `TFDataSet.read`
  returns the ordered list of pipeline stages it built (`Stage`), the
  Python exception it raised, if any (`PyError`), and the post-state of
  the object (the method performs no attribute writes, so the post-state
  is the receiver).
* The effects of `tf.Session.run` inside the two blocking drain loops are
  abstracted as a list of step outcomes (`Except PyError Unit`): each
  entry is one successful or failing advance of the one-shot cursor, and
  exhausting the list is the end-of-sequence signal.
* The sharding combinator `enumerate().filter(filter_fn).map(...)`
  (lines 64-73 of the source) is given its record-stream semantics as the
  list function `shardRecords`.
* Python attribute state is explicit: the `_size` field of the model is
  `none` when the attribute does not exist on the object (as after
  `__init__`, which never assigns it), and `some v` when it holds `v`.
-/

/-- Python exceptions that the source can raise or swallow. -/
inductive PyError
  | valueError (msg : String)
  | notImplementedError (msg : String)
  | attributeError (msg : String)
  | outOfRangeError
  deriving DecidableEq, Repr

/-- The `task_spec` collaborator: exposes `num_workers` and `index`. -/
structure TaskSpec where
  num_workers : Nat
  index : Nat
  deriving DecidableEq, Repr

/-- One dataset-pipeline operator invocation, in the order `read` (or
`_count_num_records`) performs them.  Parameters that the source passes
to the operator are recorded in the constructor. -/
inductive Stage
  | listFiles (pattern : String)
  | repeatStage (count : Nat)
  | interleave (cycleLength blockLength : Nat)
  | fromFiles (files : List String)
  | fromDatasetClass
  | enumerateStage
  | filterShard (numWorkers index : Nat)
  | mapDropIndex
  | shuffleStage (bufferSize : Nat)
  | mapParse (numThreads outputBufferSize : Nat)
  | batch (batchSize : Nat)
  | oneShotIterator
  deriving DecidableEq, Repr

/-- Record-stream semantics of the default `dataset_class`
(`TextLineDataset`): reads the given files one after the other, yielding
each file's records (lines) in order.  `linesOf` is the file system. -/
def TextLineDataset (linesOf : String → List String) : List String → List String
  | [] => []
  | f :: fs => linesOf f ++ TextLineDataset linesOf fs

/-- The `TFDataSet` object.  The first five fields are exactly the
attributes `__init__` assigns (lines 24-28).  `_size` models the
presence/value of the `_size` attribute: `none` means the attribute does
not exist on the object; `some v` means it exists and holds `v` (`v` is
`none` for Python `None`, `some n` for an integer count). -/
structure TFDataSet where
  name : String
  data_files_pattern : String
  dataset_class : List String → List String
  min_queue_examples : Nat
  shuffle_size : Option Nat
  _size : Option (Option Nat)

/-- `__init__` (lines 12-28): stores the five constructor parameters.
It performs no other assignment, in particular it never creates the
`_size` attribute, hence `_size := none`. -/
def TFDataSet.init (name : String) (data_files_pattern : String)
    (dataset_class : List String → List String)
    (min_queue_examples : Nat) (shuffle_size : Option Nat) : TFDataSet :=
  { name := name
    data_files_pattern := data_files_pattern
    dataset_class := dataset_class
    min_queue_examples := min_queue_examples
    shuffle_size := shuffle_size
    _size := none }

/-- The file list materialized by the non-shuffle drain loop
(lines 53-61): the loop drains `Dataset.list_files(pattern).repeat(num_epochs)`
through `sess.run` until `OutOfRangeError`, so it collects every matching
file (`env pattern`), `num_epochs` times over. -/
def drainFiles (env : String → List String) (pattern : String) (num_epochs : Nat) :
    List String :=
  (List.replicate num_epochs (env pattern)).flatten

/-- Record-stream semantics of the sharding combinator built at
lines 64-73: `dataset.enumerate().filter(filter_fn).map(lambda _, elem: elem)`
where `filter_fn` keeps index `i` iff `i mod num_workers == index`,
guarded by `task_spec and task_spec.num_workers > 1`. -/
def shardRecords {α : Type} (task_spec : Option TaskSpec) (xs : List α) : List α :=
  match task_spec with
  | none => xs
  | some ts =>
    if ts.num_workers > 1 then
      ((xs.enum.filter (fun p => p.1 % ts.num_workers == ts.index)).map Prod.snd)
    else
      xs

/-- The shard stages appended to the pipeline by lines 64-73, guarded by
`task_spec and task_spec.num_workers > 1`. -/
def shardStagesOf (task_spec : Option TaskSpec) : List Stage :=
  match task_spec with
  | none => []
  | some ts =>
    if ts.num_workers > 1 then
      [Stage.enumerateStage, Stage.filterShard ts.num_workers ts.index,
       Stage.mapDropIndex]
    else
      []

/-- Result of one call to `read`: the pipeline stages built (in order),
the exception raised (if any), and the object post-state. -/
structure ReadResult where
  stages : List Stage
  err : Option PyError
  post : TFDataSet

/-- `read` (lines 30-90), transcribed stage by stage.  `env` resolves the
file pattern (`Dataset.list_files`), `cpu` is `multiprocessing.cpu_count()`.
The method assigns no attribute of `self`, so the post-state is `self`.
Control flow: list_files, repeat, then interleave (shuffle) or an eager
drain into a single sequential reader (no shuffle), then the shard
filter, then — only when shuffling — the `shuffle_size` check which
raises `ValueError` when it is `None`, then map(_map), batch, iterator. -/
def TFDataSet.read (self : TFDataSet) (env : String → List String) (cpu : Nat)
    (batch_size : Nat) (num_epochs : Nat) (shuffle : Bool)
    (task_spec : Option TaskSpec) : ReadResult :=
  let stages1 := [Stage.listFiles self.data_files_pattern,
                  Stage.repeatStage num_epochs] ++
    (if shuffle then
      [Stage.interleave (cpu + 1) 1]
    else
      [Stage.fromFiles (drainFiles env self.data_files_pattern num_epochs)])
  let stages2 := stages1 ++ shardStagesOf task_spec
  let tailStages := [Stage.mapParse (cpu + 1)
                       (batch_size * cpu + self.min_queue_examples),
                     Stage.batch batch_size, Stage.oneShotIterator]
  if shuffle then
    match self.shuffle_size with
    | none =>
      { stages := stages2
        err := some (PyError.valueError "shuffle_size has not been set")
        post := self }
    | some sz =>
      { stages := stages2 ++ [Stage.shuffleStage sz] ++ tailStages
        err := none
        post := self }
  else
    { stages := stages2 ++ tailStages
      err := none
      post := self }

/-- `_map` (lines 92-112): the base-class parser hook unconditionally
raises `NotImplementedError`. -/
def TFDataSet._map (_self : TFDataSet) (_example_serialized : String) :
    Except PyError (String × String) :=
  Except.error (PyError.notImplementedError "Should have implemented this")

/-- Semantics of `dataset.map(fn)` when the stream is consumed: applies
`fn` to every record in order; the first exception raised by `fn`
propagates to the consumer (it is not caught anywhere in the source). -/
def parseStage {α : Type} (fn : String → Except PyError α) :
    List String → Except PyError (List α)
  | [] => Except.ok []
  | x :: xs =>
    match fn x with
    | Except.error e => Except.error e
    | Except.ok y =>
      match parseStage fn xs with
      | Except.error e => Except.error e
      | Except.ok ys => Except.ok (y :: ys)

/-- The counting loop of `_count_num_records` (lines 124-131):
`try: while True: sess.run(next_element); samples += 1 except: pass`.
Each list entry is one `sess.run` outcome; the end of the list is the
`OutOfRangeError` the cursor raises when exhausted.  A bare `except:`
stops the loop on any exception and swallows it, so the function is
total and returns the number of successful advances. -/
def countLoop (samples : Nat) : List (Except PyError Unit) → Nat
  | [] => samples
  | Except.ok _ :: rest => countLoop (samples + 1) rest
  | Except.error _ :: _ => samples

/-- `_count_num_records` (lines 114-132): returns the result of the
counting loop started at `samples = 0`. -/
def TFDataSet._count_num_records (_self : TFDataSet)
    (steps : List (Except PyError Unit)) : Nat :=
  countLoop 0 steps

/-- The pipeline stages `_count_num_records` builds (lines 121-125):
`Dataset.list_files(pattern).repeat(1)`, then
`self.dataset_class(dataset).repeat(1)`, then a one-shot iterator.
No `map` stage appears: the hook `_map` is never invoked. -/
def countStages (self : TFDataSet) : List Stage :=
  [Stage.listFiles self.data_files_pattern, Stage.repeatStage 1,
   Stage.fromDatasetClass, Stage.repeatStage 1, Stage.oneShotIterator]

/-- `get_size` (lines 134-137): `if self._size is None: self._size =
self._count_num_records(); return self._size`.  Reading `self._size`
when the attribute does not exist raises `AttributeError` (and `__init__`
never creates it).  Returns the result (or exception) and the
post-state. -/
def TFDataSet.get_size (self : TFDataSet)
    (steps : List (Except PyError Unit)) : Except PyError Nat × TFDataSet :=
  match self._size with
  | none =>
    (Except.error (PyError.attributeError "TFDataSet object has no attribute _size"),
     self)
  | some none =>
    let n := self._count_num_records steps
    (Except.ok n, { self with _size := some (some n) })
  | some (some n) => (Except.ok n, self)

/-- Spec-side rendering of the shard assignment: walk the stream keeping
a running record index `i`, and keep exactly the records whose index
satisfies `i % num_workers = index`. -/
def keepByIndex {α : Type} (num_workers index : Nat) : Nat → List α → List α
  | _, [] => []
  | i, x :: xs =>
    if i % num_workers = index then
      x :: keepByIndex num_workers index (i + 1) xs
    else
      keepByIndex num_workers index (i + 1) xs

/-- Whether one cursor advance succeeded. -/
def stepOk : Except PyError Unit → Bool
  | Except.ok _ => true
  | Except.error _ => false

/-! ### Helper lemmas -/

/-- The counting loop accumulates one per successful advance and stops at
the first failing one. -/
theorem countLoop_eq (acc : Nat) (steps : List (Except PyError Unit)) :
    countLoop acc steps = acc + (steps.takeWhile stepOk).length := by
  induction steps generalizing acc with
  | nil => simp [countLoop]
  | cons s rest ih =>
    cases s with
    | ok u => simp [countLoop, List.takeWhile, stepOk, ih]; omega
    | error e => simp [countLoop, List.takeWhile, stepOk]

/-- The enumerate/filter/map composition keeps exactly the records whose
running index is congruent to `index` modulo `num_workers`. -/
theorem shard_enumFrom {α : Type} (w idx : Nat) (xs : List α) (i : Nat) :
    ((List.enumFrom i xs).filter (fun p => p.1 % w == idx)).map Prod.snd =
      keepByIndex w idx i xs := by
  induction xs generalizing i with
  | nil => simp [keepByIndex]
  | cons x xs ih =>
    by_cases h : i % w = idx
    · have hb : (i % w == idx) = true := by simpa using h
      simp [List.enumFrom, List.filter_cons, hb, keepByIndex, h, ih]
    · have hb : (i % w == idx) = false := by simpa using h
      simp [List.enumFrom, List.filter_cons, hb, keepByIndex, h, ih]

/-- Stopping behaviour of the counting loop: all-successful prefix, then
any exception stops it and the count so far is returned. -/
theorem countLoop_append_error (acc : Nat) (pre rest : List (Except PyError Unit))
    (e : PyError) (h : ∀ s ∈ pre, stepOk s = true) :
    countLoop acc (pre ++ Except.error e :: rest) = acc + pre.length := by
  induction pre generalizing acc with
  | nil => simp [countLoop]
  | cons s ps ih =>
    cases s with
    | ok u =>
      have hps : ∀ s ∈ ps, stepOk s = true := fun s hs => h s (List.mem_cons_of_mem _ hs)
      simp [countLoop, ih (acc + 1) hps]
      omega
    | error e2 =>
      have : stepOk (Except.error e2) = true := h _ (List.mem_cons_self _ _)
      simp [stepOk] at this

/-- A fully successful run of `n` advances counts exactly `n`. -/
theorem countLoop_replicate_ok (acc n : Nat) :
    countLoop acc (List.replicate n (Except.ok ())) = acc + n := by
  induction n generalizing acc with
  | zero => simp [countLoop]
  | succ m ih => simp [List.replicate, countLoop, ih]; omega

/-- The sequential reader yields the records of its files in file order. -/
theorem TextLineDataset_eq_flatMap (linesOf : String → List String)
    (files : List String) :
    TextLineDataset linesOf files = files.flatMap linesOf := by
  induction files with
  | nil => rfl
  | cons f fs ih => simp [TextLineDataset, ih]

/-- In the multi-worker case the sharding combinator equals the
index-modulo selection starting at index `0`. -/
theorem shardRecords_eq_keepByIndex {α : Type} (ts : TaskSpec)
    (hw : ts.num_workers > 1) (xs : List α) :
    shardRecords (some ts) xs = keepByIndex ts.num_workers ts.index 0 xs := by
  simp [shardRecords, hw]
  simpa [List.enum] using shard_enumFrom ts.num_workers ts.index xs 0

/-! ### Claim theorems -/

/-- C1: with a task spec whose `num_workers > 1`, the sharding stage
keeps exactly the records whose sequential stream index `i` satisfies
`i % num_workers = index`; with `task_spec = None` or `num_workers <= 1`
the stream passes through unchanged. -/
theorem shard_assignment_correct {α : Type} (ts : TaskSpec) (xs : List α) :
    (ts.num_workers > 1 →
      shardRecords (some ts) xs = keepByIndex ts.num_workers ts.index 0 xs)
    ∧ shardRecords (none : Option TaskSpec) xs = xs
    ∧ (ts.num_workers ≤ 1 → shardRecords (some ts) xs = xs) := by
  refine ⟨fun hw => shardRecords_eq_keepByIndex ts hw xs, rfl, fun h => ?_⟩
  simp [shardRecords, Nat.not_lt.mpr h]

theorem shard_assignment_correct_witness :
    shardRecords (some (TaskSpec.mk 3 1)) [10, 20, 30, 40, 50] =
      keepByIndex 3 1 0 [10, 20, 30, 40, 50] :=
  (shard_assignment_correct (TaskSpec.mk 3 1) [10, 20, 30, 40, 50]).1 (by decide)

/-- C5: the counting loop of `_count_num_records` stops at the first
exception of any kind (not only end-of-sequence), swallows it (the
function is total and returns a plain count), and returns the number of
successful advances before it: the length of the successful prefix. -/
theorem count_num_records_swallows_any_exception (ds : TFDataSet) :
    (∀ steps, ds._count_num_records steps = (steps.takeWhile stepOk).length)
    ∧ ∀ (pre rest : List (Except PyError Unit)) (e : PyError),
        (∀ s ∈ pre, stepOk s = true) →
        ds._count_num_records (pre ++ Except.error e :: rest) = pre.length := by
  constructor
  · intro steps
    simpa using countLoop_eq 0 steps
  · intro pre rest e h
    simpa using countLoop_append_error 0 pre rest e h

theorem count_num_records_swallows_any_exception_witness :
    (TFDataSet.init "d" "*.txt" (TextLineDataset (fun _ => [])) 0
        none)._count_num_records
      ([Except.ok (), Except.ok ()] ++
        Except.error (PyError.valueError "boom") :: [Except.ok ()]) = 2 :=
  (count_num_records_swallows_any_exception _).2 [Except.ok (), Except.ok ()]
    [Except.ok ()] (PyError.valueError "boom") (by decide)

/-- C4: on the base class the parser hook `_map` raises
`NotImplementedError` on every record, and the error propagates through
the parse stage of the pipeline to the consumer (nothing catches it). -/
theorem map_raises_not_implemented (ds : TFDataSet) (x : String) :
    ds._map x =
      Except.error (PyError.notImplementedError "Should have implemented this")
    ∧ ∀ (r : String) (rs : List String),
        parseStage ds._map (r :: rs) =
          Except.error (PyError.notImplementedError "Should have implemented this") :=
  ⟨rfl, fun _ _ => rfl⟩

/-- C9: the pipeline built by `_count_num_records` contains no parse
stage (it never invokes `_map`), and counting a stream of `n` raw records
succeeds, returning `n`, with no not-implemented error possible. -/
theorem count_path_never_invokes_map (ds : TFDataSet) :
    (∀ t b, Stage.mapParse t b ∉ countStages ds)
    ∧ ∀ n, ds._count_num_records (List.replicate n (Except.ok ())) = n := by
  constructor
  · intro t b
    simp [countStages]
  · intro n
    simpa using countLoop_replicate_ok 0 n

theorem count_path_never_invokes_map_witness :
    Stage.mapParse 3 8 ∉
      countStages (TFDataSet.init "d" "*.txt" (TextLineDataset (fun _ => [])) 0 none) :=
  (count_path_never_invokes_map _).1 3 8

/-- C3 (divergence evidence): on a freshly constructed instance the first
call to `get_size` does not compute and return the record count: it
raises `AttributeError`, because `__init__` never creates the `_size`
attribute that `get_size` reads. -/
theorem get_size_first_call_raises_attribute_error :
    ((TFDataSet.init "dataset" "*.txt" (TextLineDataset (fun _ => []))
        0 none).get_size [Except.ok ()]).1 =
      Except.error
        (PyError.attributeError "TFDataSet object has no attribute _size") :=
  rfl

/-- Concrete sample objects used by the witnesses below. -/
def sampleLines : String → List String := fun _ => ["l1", "l2"]

def sampleEnv : String → List String := fun _ => ["f1"]

def sampleDS : TFDataSet :=
  TFDataSet.init "sample" "*.txt" (TextLineDataset sampleLines) 0 none

def sampleShuffleDS : TFDataSet :=
  TFDataSet.init "sample" "*.txt" (TextLineDataset sampleLines) 0 (some 5)

/-- C2: with `shuffle=True`, `read` raises
`ValueError('shuffle_size has not been set')` if and only if
`shuffle_size` is unset, and when it raises, neither the parse stage nor
the batch stage has been built; with `shuffle=False` no such error is
raised regardless of `shuffle_size`. -/
theorem read_shuffle_requires_shuffle_size (ds : TFDataSet)
    (env : String → List String) (cpu batch_size num_epochs : Nat)
    (task_spec : Option TaskSpec) :
    ((ds.read env cpu batch_size num_epochs true task_spec).err =
        some (PyError.valueError "shuffle_size has not been set") ↔
      ds.shuffle_size = none)
    ∧ (ds.shuffle_size = none →
        (∀ t b, Stage.mapParse t b ∉
            (ds.read env cpu batch_size num_epochs true task_spec).stages)
        ∧ ∀ b, Stage.batch b ∉
            (ds.read env cpu batch_size num_epochs true task_spec).stages)
    ∧ (ds.read env cpu batch_size num_epochs false task_spec).err = none := by
  refine ⟨?_, ?_, ?_⟩
  · cases h : ds.shuffle_size <;> simp [TFDataSet.read, h]
  · intro h
    constructor
    · intro t b
      cases task_spec with
      | none => simp [TFDataSet.read, h, shardStagesOf]
      | some ts =>
        by_cases hw : ts.num_workers > 1 <;>
          simp [TFDataSet.read, h, shardStagesOf, hw]
    · intro b
      cases task_spec with
      | none => simp [TFDataSet.read, h, shardStagesOf]
      | some ts =>
        by_cases hw : ts.num_workers > 1 <;>
          simp [TFDataSet.read, h, shardStagesOf, hw]
  · simp [TFDataSet.read]

theorem read_shuffle_requires_shuffle_size_witness :
    (sampleDS.read sampleEnv 2 4 1 true none).err =
      some (PyError.valueError "shuffle_size has not been set") :=
  (read_shuffle_requires_shuffle_size sampleDS sampleEnv 2 4 1 none).1.mpr rfl

/-- C6: with `shuffle=False`, `read` raises nothing, materializes the
matching file names (the pattern's matches, once per epoch) into a fixed
in-memory list and builds a single sequential reader over exactly that
list — no interleave stage — and the default reader class yields the
records of those files in file order. -/
theorem read_no_shuffle_materializes_files (ds : TFDataSet)
    (env linesOf : String → List String) (cpu batch_size num_epochs : Nat)
    (task_spec : Option TaskSpec)
    (hclass : ds.dataset_class = TextLineDataset linesOf) :
    (ds.read env cpu batch_size num_epochs false task_spec).err = none
    ∧ Stage.fromFiles
        ((List.replicate num_epochs (env ds.data_files_pattern)).flatten) ∈
        (ds.read env cpu batch_size num_epochs false task_spec).stages
    ∧ (∀ c b, Stage.interleave c b ∉
        (ds.read env cpu batch_size num_epochs false task_spec).stages)
    ∧ ∀ files, ds.dataset_class files = files.flatMap linesOf := by
  refine ⟨by simp [TFDataSet.read], ?_, ?_, ?_⟩
  · simp [TFDataSet.read, drainFiles]
  · intro c b
    cases task_spec with
    | none => simp [TFDataSet.read, shardStagesOf]
    | some ts =>
      by_cases hw : ts.num_workers > 1 <;>
        simp [TFDataSet.read, shardStagesOf, hw]
  · intro files
    rw [hclass]
    exact TextLineDataset_eq_flatMap linesOf files

theorem read_no_shuffle_materializes_files_witness :
    (sampleDS.read sampleEnv 2 4 1 false none).err = none
    ∧ Stage.fromFiles ["f1"] ∈ (sampleDS.read sampleEnv 2 4 1 false none).stages :=
  ⟨(read_no_shuffle_materializes_files sampleDS sampleEnv sampleLines
      2 4 1 none rfl).1,
   (read_no_shuffle_materializes_files sampleDS sampleEnv sampleLines
      2 4 1 none rfl).2.1⟩

/-- C7: whenever `read` builds the parse stage, it is configured with
exactly `cpu_count + 1` parallel workers and an output buffer of exactly
`batch_size * cpu_count + min_queue_examples`. -/
theorem read_parse_stage_parameters (ds : TFDataSet)
    (env : String → List String) (cpu batch_size num_epochs : Nat)
    (shuffle : Bool) (task_spec : Option TaskSpec) (t b : Nat)
    (hmem : Stage.mapParse t b ∈
      (ds.read env cpu batch_size num_epochs shuffle task_spec).stages) :
    t = cpu + 1 ∧ b = batch_size * cpu + ds.min_queue_examples := by
  cases shuffle with
  | false =>
    cases task_spec with
    | none =>
      simp [TFDataSet.read, shardStagesOf] at hmem
      exact hmem
    | some ts =>
      by_cases hw : ts.num_workers > 1 <;>
        (simp [TFDataSet.read, shardStagesOf, hw] at hmem; exact hmem)
  | true =>
    cases h : ds.shuffle_size with
    | none =>
      cases task_spec with
      | none => simp [TFDataSet.read, shardStagesOf, h] at hmem
      | some ts =>
        by_cases hw : ts.num_workers > 1 <;>
          simp [TFDataSet.read, shardStagesOf, hw, h] at hmem
    | some sz =>
      cases task_spec with
      | none =>
        simp [TFDataSet.read, shardStagesOf, h] at hmem
        exact hmem
      | some ts =>
        by_cases hw : ts.num_workers > 1 <;>
          (simp [TFDataSet.read, shardStagesOf, hw, h] at hmem; exact hmem)

theorem read_parse_stage_parameters_witness :
    3 = 2 + 1 ∧ 8 = 4 * 2 + sampleDS.min_queue_examples :=
  read_parse_stage_parameters sampleDS sampleEnv 2 4 1 false none 3 8 (by decide)

/-- C8: `read` leaves the object state unchanged (in particular the five
descriptor attributes set by `__init__`), whether it returns or raises;
`get_size` leaves every descriptor attribute unchanged and may modify
only the cached `_size` attribute. -/
theorem read_get_size_frame (ds : TFDataSet) (env : String → List String)
    (cpu batch_size num_epochs : Nat) (shuffle : Bool)
    (task_spec : Option TaskSpec) (steps : List (Except PyError Unit)) :
    (ds.read env cpu batch_size num_epochs shuffle task_spec).post = ds
    ∧ (ds.get_size steps).2.name = ds.name
    ∧ (ds.get_size steps).2.data_files_pattern = ds.data_files_pattern
    ∧ (ds.get_size steps).2.dataset_class = ds.dataset_class
    ∧ (ds.get_size steps).2.min_queue_examples = ds.min_queue_examples
    ∧ (ds.get_size steps).2.shuffle_size = ds.shuffle_size
    ∧ (ds.get_size steps).2 = { ds with _size := (ds.get_size steps).2._size } := by
  have hread :
      (ds.read env cpu batch_size num_epochs shuffle task_spec).post = ds := by
    cases shuffle with
    | false => simp [TFDataSet.read]
    | true => cases h : ds.shuffle_size <;> simp [TFDataSet.read, h]
  refine ⟨hread, ?_⟩
  cases hs : ds._size with
  | none =>
    simp [TFDataSet.get_size, hs]
    rw [← hs]
  | some v =>
    cases v with
    | none => simp [TFDataSet.get_size, hs]
    | some n =>
      simp [TFDataSet.get_size, hs]
      rw [← hs]

/-- C10: with `shuffle=True`, a multi-worker task spec and a configured
`shuffle_size`, the pipeline stages are built in exactly this order: the
shard combinator (enumerate, index-modulo filter, index drop) sits
strictly before the shuffle operator, so shard membership is decided by
a record's index in the pre-shuffle stream — that stage keeping exactly
the records whose index is congruent to the worker index — and each
worker shuffles only its own shard. -/
theorem shard_before_shuffle (ds : TFDataSet) (env : String → List String)
    (cpu batch_size num_epochs sz : Nat) (ts : TaskSpec)
    (hsz : ds.shuffle_size = some sz) (hw : ts.num_workers > 1) :
    (ds.read env cpu batch_size num_epochs true (some ts)).stages =
      [Stage.listFiles ds.data_files_pattern, Stage.repeatStage num_epochs,
       Stage.interleave (cpu + 1) 1, Stage.enumerateStage,
       Stage.filterShard ts.num_workers ts.index, Stage.mapDropIndex,
       Stage.shuffleStage sz,
       Stage.mapParse (cpu + 1) (batch_size * cpu + ds.min_queue_examples),
       Stage.batch batch_size, Stage.oneShotIterator]
    ∧ ∀ (α : Type) (xs : List α),
        shardRecords (some ts) xs = keepByIndex ts.num_workers ts.index 0 xs := by
  constructor
  · simp [TFDataSet.read, hsz, shardStagesOf, hw]
  · intro α xs
    exact shardRecords_eq_keepByIndex ts hw xs

theorem shard_before_shuffle_witness :
    (sampleShuffleDS.read sampleEnv 2 4 1 true (some (TaskSpec.mk 2 1))).stages =
      [Stage.listFiles "*.txt", Stage.repeatStage 1, Stage.interleave 3 1,
       Stage.enumerateStage, Stage.filterShard 2 1, Stage.mapDropIndex,
       Stage.shuffleStage 5, Stage.mapParse 3 8, Stage.batch 4,
       Stage.oneShotIterator] :=
  (shard_before_shuffle sampleShuffleDS sampleEnv 2 4 1 5 (TaskSpec.mk 2 1)
    rfl (by decide)).1
